import Mathlib

set_option maxRecDepth 8000

/-!
Shallow embedding of the `creditcard` Go package (files `type.go` and
`info_func.go`).  Go strings are modelled as `List Char`, every character
standing for one byte; byte arithmetic (`byte` in Go) is modelled on `Nat`
with explicit reduction modulo 256.
-/

/-- `CardType` from type.go: the supported card issuers. -/
inductive CardType where
  | unknownCardType
  | visaCard
  | masterCard
  | jcbCard
  | americanExpress
  | unionPay
deriving DecidableEq

/-- The error values of `ErrPANFormat` declared in type.go. -/
inductive ErrPANFormat where
  | errSection
  | errRaw
  | errMasked
  | errValidateMasked
  | errValidate
deriving DecidableEq

/-- Character class `[0-9]` (byte comparison, as Go's regexp does on ASCII). -/
def isDigitCh (c : Char) : Bool := 48 ≤ c.toNat && c.toNat ≤ 57

/-- Character class `[0-9*]`, the alphabet of a PAN section. -/
def isPanChar (c : Char) : Bool := isDigitCh c || c == '*'

/-- Character range `[lo-hi]` of a regexp character class. -/
def inRange (lo hi : Char) (c : Char) : Bool := lo.toNat ≤ c.toNat && c.toNat ≤ hi.toNat

/-- `reVISA.MatchString`: regexp `^4`. -/
def matchVISA : List Char → Bool
  | '4' :: _ => true
  | _ => false

/-- `reMaster.MatchString`: regexp `^(5[1-5]|222[1-9]|22[3-9][0-9]|27[01][0-9]|2720)`,
one disjunct per alternative. -/
def matchMaster (s : List Char) : Bool :=
  (match s with | '5' :: c :: _ => inRange '1' '5' c | _ => false)
  || (match s with | '2' :: '2' :: '2' :: c :: _ => inRange '1' '9' c | _ => false)
  || (match s with | '2' :: '2' :: c :: d :: _ => inRange '3' '9' c && inRange '0' '9' d | _ => false)
  || (match s with | '2' :: '7' :: c :: d :: _ => inRange '0' '1' c && inRange '0' '9' d | _ => false)
  || (match s with | '2' :: '7' :: '2' :: '0' :: _ => true | _ => false)

/-- `reAmericanExpress.MatchString`: regexp `^3[47]`. -/
def matchAmericanExpress : List Char → Bool
  | '3' :: c :: _ => c == '4' || c == '7'
  | _ => false

/-- `reJCB.MatchString`: regexp `^35(2[89]|[3-8][0-9])`. -/
def matchJCB : List Char → Bool
  | '3' :: '5' :: c :: d :: _ =>
      (c == '2' && (d == '8' || d == '9')) || (inRange '3' '8' c && inRange '0' '9' d)
  | _ => false

/-- `reUnionPay.MatchString`: regexp `^(62|81)`. -/
def matchUnionPay : List Char → Bool
  | '6' :: '2' :: _ => true
  | '8' :: '1' :: _ => true
  | _ => false

/-- The `[4]string` array of sections held by `info`. -/
structure Pan where
  s0 : List Char
  s1 : List Char
  s2 : List Char
  s3 : List Char
deriving DecidableEq

/-- `cardType` from info_func.go: ordered regexp switch over `pan[0]`. -/
def cardType (pan : Pan) : CardType :=
  if matchVISA pan.s0 then CardType.visaCard
  else if matchMaster pan.s0 then CardType.masterCard
  else if matchAmericanExpress pan.s0 then CardType.americanExpress
  else if matchJCB pan.s0 then CardType.jcbCard
  else if matchUnionPay pan.s0 then CardType.unionPay
  else CardType.unknownCardType

/-- The `info` struct from type.go. -/
structure Info where
  pan : Pan
  typ : CardType
deriving DecidableEq

/-- A character read as a Go byte. -/
def byteOf (c : Char) : Nat := c.toNat % 256

/-- Go byte subtraction (wrap-around modulo 256). -/
def bsub (a b : Nat) : Nat := (a % 256 + 256 - b % 256) % 256

/-- Go byte addition (wrap-around modulo 256). -/
def badd (a b : Nat) : Nat := (a % 256 + b % 256) % 256

/-- Go byte multiplication (wrap-around modulo 256). -/
def bmul (a b : Nat) : Nat := (a % 256 * (b % 256)) % 256

/-- The body of `Validate`'s loop: `c -= '0'; c *= x; if c > 9 { c -= 9 }`
where `x` is 1 at an even index and 2 at an odd index. -/
def luhnStep (idx : Nat) (c : Char) : Nat :=
  let x : Nat := if idx % 2 == 0 then 1 else 2
  let v := bmul (bsub (byteOf c) 48) x
  if v > 9 then bsub v 9 else v

/-- `Validate`'s accumulation `sum += c` over the indexed characters. -/
def luhnSumAux : Nat → Nat → List Char → Nat
  | _, sum, [] => sum
  | idx, sum, c :: rest => luhnSumAux (idx + 1) (badd sum (luhnStep idx c)) rest

/-- `RawPAN()`: `strings.Join(i.pan[:], "")`. -/
def Info.RawPAN (i : Info) : List Char := i.pan.s0 ++ i.pan.s1 ++ i.pan.s2 ++ i.pan.s3

/-- `PAN()`: `strings.Join(i.pan[:], "-")`. -/
def Info.PAN (i : Info) : List Char :=
  i.pan.s0 ++ ['-'] ++ i.pan.s1 ++ ['-'] ++ i.pan.s2 ++ ['-'] ++ i.pan.s3

/-- `CardType()` accessor: returns the stored `typ`. -/
def Info.CardType (i : Info) : CardType := i.typ

/-- `Checksum()`: `i.pan[3][3:]`. -/
def Info.Checksum (i : Info) : List Char := i.pan.s3.drop 3

/-- `Last4()`: `i.pan[3]`. -/
def Info.Last4 (i : Info) : List Char := i.pan.s3

/-- `First6()`: `i.pan[0] + i.pan[1][:2]`. -/
def Info.First6 (i : Info) : List Char := i.pan.s0 ++ i.pan.s1.take 2

/-- `FullLast4()`: `"****-****-****-" + i.pan[3]`. -/
def Info.FullLast4 (i : Info) : List Char := "****-****-****-".toList ++ i.pan.s3

/-- `FullFirst6()`: `i.pan[0] + "-" + i.pan[1][:2] + "**-****-****"`. -/
def Info.FullFirst6 (i : Info) : List Char :=
  i.pan.s0 ++ ['-'] ++ i.pan.s1.take 2 ++ "**-****-****".toList

/-- `RawMasked()`: `i.First6() + "******" + i.Last4()`. -/
def Info.RawMasked (i : Info) : List Char := i.First6 ++ "******".toList ++ i.Last4

/-- `Masked()`: `i.pan[0] + "-" + i.pan[1][:2] + "**-****-" + i.pan[3]`. -/
def Info.Masked (i : Info) : List Char :=
  i.pan.s0 ++ ['-'] ++ i.pan.s1.take 2 ++ "**-****-".toList ++ i.pan.s3

/-- `Validate()` from info_func.go.  `none` models a nil error. -/
def Info.Validate (i : Info) : Option ErrPANFormat :=
  let pan := i.RawPAN
  if pan.contains '*' then some ErrPANFormat.errValidateMasked
  else
    let l := pan.length
    let checksum := bsub (byteOf (pan.getD (l - 1) '0')) 48
    let sum := luhnSumAux 0 0 (pan.take (l - 1))
    if badd checksum sum % 10 ≠ 0 then some ErrPANFormat.errValidate
    else none

/-- `reSlicedPAN.MatchString`: regexp `^[0-9*]{0,4}$`. -/
def reSlicedPAN (s : List Char) : Bool := s.length ≤ 4 && s.all isPanChar

/-- The per-section padding of `FromSlice`: append `"*"` up to length 4. -/
def padSection (s : List Char) : List Char :=
  if s.length < 4 then s ++ List.replicate (4 - s.length) '*' else s

/-- `FromSlice` from info_func.go.  Go pads the slice with empty strings up to
four entries and then validates and pads every entry; `List.getD k []` reads
the `k`-th entry of that padded slice. -/
def FromSlice (arr : List (List Char)) : Except ErrPANFormat Info :=
  if arr.length > 4 then Except.error ErrPANFormat.errSection
  else
    let a0 := arr.getD 0 []
    let a1 := arr.getD 1 []
    let a2 := arr.getD 2 []
    let a3 := arr.getD 3 []
    if reSlicedPAN a0 && reSlicedPAN a1 && reSlicedPAN a2 && reSlicedPAN a3 then
      let pan : Pan := ⟨padSection a0, padSection a1, padSection a2, padSection a3⟩
      Except.ok ⟨pan, cardType pan⟩
    else Except.error ErrPANFormat.errSection

/-- `FromPart(parts ...string)`: delegates to `FromSlice`. -/
def FromPart (parts : List (List Char)) : Except ErrPANFormat Info := FromSlice parts

/-- Go's `strings.Split(s, "-")` (a non-empty separator: the empty string
splits into one empty fragment). -/
def goSplitDash : List Char → List (List Char)
  | [] => [[]]
  | c :: rest =>
    if c = '-' then [] :: goSplitDash rest
    else
      match goSplitDash rest with
      | [] => [[c]]
      | h :: t => (c :: h) :: t

/-- `FromDashed`: `FromSlice(strings.Split(str, "-"))`. -/
def FromDashed (str : List Char) : Except ErrPANFormat Info := FromSlice (goSplitDash str)

/-- `FromRaw`: length-16 check, then `FromPart` on the four 4-byte slices. -/
def FromRaw (str : List Char) : Except ErrPANFormat Info :=
  if str.length ≠ 16 then Except.error ErrPANFormat.errRaw
  else FromPart [str.take 4, (str.drop 4).take 4, (str.drop 8).take 4, str.drop 12]

/-- `FromMasked`: length checks, then
`FromPart(first6[:4], first6[4:]+"**", "****", last4)`. -/
def FromMasked (first6 last4 : List Char) : Except ErrPANFormat Info :=
  if first6.length ≠ 6 ∨ last4.length ≠ 4 then Except.error ErrPANFormat.errMasked
  else FromPart [first6.take 4, first6.drop 4 ++ ['*', '*'], ['*', '*', '*', '*'], last4]

deriving instance DecidableEq for Except

/-- Well-formedness of one section: length 4 over the alphabet `[0-9*]`. -/
def sectionWF (s : List Char) : Prop := s.length = 4 ∧ s.all isPanChar = true

/-- The PAN invariant: four sections, each well formed. -/
def WF (i : Info) : Prop :=
  sectionWF i.pan.s0 ∧ sectionWF i.pan.s1 ∧ sectionWF i.pan.s2 ∧ sectionWF i.pan.s3

instance (s : List Char) : Decidable (sectionWF s) := by
  unfold sectionWF
  infer_instance

instance (i : Info) : Decidable (WF i) := by
  unfold WF
  infer_instance

/-- An `Info` produced without error by one of the five constructors. -/
def Constructed (i : Info) : Prop :=
  (∃ arr, FromSlice arr = Except.ok i) ∨ (∃ parts, FromPart parts = Except.ok i)
  ∨ (∃ s, FromDashed s = Except.ok i) ∨ (∃ s, FromRaw s = Except.ok i)
  ∨ (∃ a b, FromMasked a b = Except.ok i)

/-- Spec-side Luhn digit value: the digit itself at an even index; at an odd
index the digit doubled, minus 9 when the double exceeds 9. -/
def specLuhnDigit (idx : Nat) (c : Char) : Nat :=
  let d := c.toNat - 48
  if idx % 2 = 1 then (if 2 * d > 9 then 2 * d - 9 else 2 * d) else d

/-- Spec-side Luhn sum over a digit string starting at a given index. -/
def specLuhnSum : Nat → List Char → Nat
  | _, [] => 0
  | idx, c :: rest => specLuhnDigit idx c + specLuhnSum (idx + 1) rest

lemma luhnStep_digit (idx : Nat) (c : Char) (h : isDigitCh c = true) :
    luhnStep idx c = specLuhnDigit idx c ∧ specLuhnDigit idx c ≤ 9 := by
  have hc : 48 ≤ c.toNat ∧ c.toNat ≤ 57 := by
    simpa [isDigitCh, Bool.and_eq_true, decide_eq_true_eq] using h
  obtain ⟨h1, h2⟩ := hc
  unfold luhnStep specLuhnDigit byteOf bsub bmul
  rcases Nat.mod_two_eq_zero_or_one idx with hp | hp <;>
    simp only [hp, beq_iff_eq, if_true, if_false, Nat.zero_ne_one, one_ne_zero,
      reduceIte] <;> split_ifs <;> omega

lemma specLuhnSum_le (cs : List Char) : ∀ idx, cs.all isDigitCh = true →
    specLuhnSum idx cs ≤ 9 * cs.length := by
  induction cs with
  | nil => intro idx _; simp [specLuhnSum]
  | cons c rest ih =>
    intro idx hall
    rw [List.all_cons, Bool.and_eq_true] at hall
    have h1 := (luhnStep_digit idx c hall.1).2
    have h2 := ih (idx + 1) hall.2
    simp only [specLuhnSum, List.length_cons]
    omega

lemma luhnSumAux_eq (cs : List Char) : ∀ idx sum, cs.all isDigitCh = true →
    sum + 9 * cs.length ≤ 255 →
    luhnSumAux idx sum cs = sum + specLuhnSum idx cs := by
  induction cs with
  | nil => intro idx sum _ _; simp [luhnSumAux, specLuhnSum]
  | cons c rest ih =>
    intro idx sum hall hb
    rw [List.all_cons, Bool.and_eq_true] at hall
    rw [List.length_cons] at hb
    obtain ⟨hstep, hle⟩ := luhnStep_digit idx c hall.1
    have hba : badd sum (luhnStep idx c) = sum + specLuhnDigit idx c := by
      rw [hstep]; unfold badd; omega
    simp only [luhnSumAux, specLuhnSum]
    rw [hba, ih (idx + 1) (sum + specLuhnDigit idx c) hall.2 (by omega)]
    omega

lemma all_digit_of_no_mask (s : List Char) (hp : s.all isPanChar = true)
    (hm : s.contains '*' = false) : s.all isDigitCh = true := by
  rw [List.all_eq_true] at hp ⊢
  intro c hc
  have h0 : isDigitCh c = true ∨ c = '*' := by
    have h1 := hp c hc
    unfold isPanChar at h1
    simpa using h1
  rcases h0 with h | h
  · exact h
  · exfalso
    have hmem : '*' ∈ s := h ▸ hc
    have h2 : s.contains '*' = true := List.elem_iff.mpr hmem
    rw [hm] at h2
    exact Bool.false_ne_true h2

lemma reSlicedPAN_iff (s : List Char) :
    reSlicedPAN s = true ↔ s.length ≤ 4 ∧ s.all isPanChar = true := by
  simp [reSlicedPAN, Bool.and_eq_true, decide_eq_true_eq]

lemma padSection_wf (s : List Char) (h : reSlicedPAN s = true) : sectionWF (padSection s) := by
  rw [reSlicedPAN_iff] at h
  obtain ⟨hl, ha⟩ := h
  unfold padSection sectionWF
  split_ifs with hlt
  · refine ⟨by simp [List.length_append, List.length_replicate]; omega, ?_⟩
    rw [List.all_append, Bool.and_eq_true]
    refine ⟨ha, ?_⟩
    rw [List.all_eq_true]
    intro c hc
    rw [List.eq_of_mem_replicate hc]
    decide
  · exact ⟨by omega, ha⟩

lemma padSection_eq_append (s : List Char) (h : s.length ≤ 4) :
    padSection s = s ++ List.replicate (4 - s.length) '*' := by
  unfold padSection
  split_ifs with hlt
  · rfl
  · have h4 : s.length = 4 := by omega
    simp [h4]

lemma padSection_id (s : List Char) (h : s.length = 4) : padSection s = s := by
  unfold padSection
  rw [h]
  simp

lemma FromSlice_ok_iff (arr : List (List Char)) (i : Info) :
    FromSlice arr = Except.ok i ↔
      arr.length ≤ 4
      ∧ reSlicedPAN (arr.getD 0 []) = true ∧ reSlicedPAN (arr.getD 1 []) = true
      ∧ reSlicedPAN (arr.getD 2 []) = true ∧ reSlicedPAN (arr.getD 3 []) = true
      ∧ i = ⟨⟨padSection (arr.getD 0 []), padSection (arr.getD 1 []),
              padSection (arr.getD 2 []), padSection (arr.getD 3 [])⟩,
             cardType ⟨padSection (arr.getD 0 []), padSection (arr.getD 1 []),
              padSection (arr.getD 2 []), padSection (arr.getD 3 [])⟩⟩ := by
  simp only [FromSlice]
  split_ifs with h1 h2
  · constructor
    · intro h; simp at h
    · intro h; omega
  · simp only [Bool.and_eq_true] at h2
    obtain ⟨⟨⟨c0, c1⟩, c2⟩, c3⟩ := h2
    constructor
    · intro h
      exact ⟨by omega, c0, c1, c2, c3, (Except.ok.inj h).symm⟩
    · rintro ⟨-, -, -, -, -, hi⟩
      rw [hi]
  · simp only [Bool.and_eq_true, not_and] at h2
    constructor
    · intro h; simp at h
    · rintro ⟨-, c0, c1, c2, c3, -⟩
      exact absurd c3 (h2 ⟨⟨c0, c1⟩, c2⟩)

lemma FromSlice_err (arr : List (List Char)) (h : ∀ i, FromSlice arr ≠ Except.ok i) :
    FromSlice arr = Except.error ErrPANFormat.errSection := by
  rcases hfs : FromSlice arr with e | i
  · rcases hfs2 : e with - | - | - | - | -
    all_goals
      first
      | rfl
      | (exfalso
         rw [hfs2] at hfs
         revert hfs
         simp only [FromSlice]
         split_ifs <;> intro hfs <;> simp at hfs)
  · exact absurd hfs (h i)

lemma Constructed_fromSlice (i : Info) (h : Constructed i) :
    ∃ arr, FromSlice arr = Except.ok i := by
  rcases h with ⟨arr, h⟩ | ⟨p, h⟩ | ⟨s, h⟩ | ⟨s, h⟩ | ⟨a, b, h⟩
  · exact ⟨arr, h⟩
  · exact ⟨p, h⟩
  · exact ⟨goSplitDash s, h⟩
  · rw [FromRaw] at h
    split_ifs at h
    exact ⟨_, h⟩
  · rw [FromMasked] at h
    split_ifs at h
    exact ⟨_, h⟩

lemma FromSlice_ok_wf (arr : List (List Char)) (i : Info) (h : FromSlice arr = Except.ok i) :
    WF i ∧ i.typ = cardType i.pan := by
  rw [FromSlice_ok_iff] at h
  obtain ⟨-, h0, h1, h2, h3, hi⟩ := h
  subst hi
  exact ⟨⟨padSection_wf _ h0, padSection_wf _ h1, padSection_wf _ h2, padSection_wf _ h3⟩, rfl⟩

lemma Constructed_wf (i : Info) (h : Constructed i) : WF i ∧ i.typ = cardType i.pan := by
  obtain ⟨arr, harr⟩ := Constructed_fromSlice i h
  exact FromSlice_ok_wf arr i harr

lemma WF_rawPAN_length (i : Info) (h : WF i) : i.RawPAN.length = 16 := by
  obtain ⟨⟨l0, -⟩, ⟨l1, -⟩, ⟨l2, -⟩, ⟨l3, -⟩⟩ := h
  simp [Info.RawPAN, List.length_append, l0, l1, l2, l3]

lemma WF_rawPAN_all (i : Info) (h : WF i) : i.RawPAN.all isPanChar = true := by
  obtain ⟨⟨-, a0⟩, ⟨-, a1⟩, ⟨-, a2⟩, ⟨-, a3⟩⟩ := h
  simp only [Info.RawPAN, List.all_append, a0, a1, a2, a3, Bool.and_self]

/-- C1: for every PAN, `Validate` returns the masked outcome exactly when the
16-character concatenation of the sections contains a mask character; otherwise
it returns the valid outcome exactly when the Luhn sum of the first 15 digits
(multiplier 1 at an even index, 2 at an odd index, subtracting 9 from a doubled
digit exceeding 9) plus the declared check digit is divisible by 10, and the
invalid-checksum outcome otherwise.  All three outcomes are returned as values
of `Option ErrPANFormat`; nothing is raised. -/
theorem C1_validate_luhn (i : Info) (h : WF i) :
    (i.Validate = some ErrPANFormat.errValidateMasked ↔ i.RawPAN.contains '*' = true)
    ∧ (i.RawPAN.contains '*' = false →
        i.Validate =
          if (specLuhnSum 0 (i.RawPAN.take 15) + ((i.RawPAN.getD 15 '0').toNat - 48)) % 10 = 0
          then none
          else some ErrPANFormat.errValidate) := by
  have hlen := WF_rawPAN_length i h
  have hall := WF_rawPAN_all i h
  by_cases hc : i.RawPAN.contains '*' = true
  · constructor
    · rw [hc]
      simp only [Info.Validate, hc, if_true, iff_true]
    · intro hf
      rw [hf] at hc
      exact absurd hc (by simp)
  · rw [Bool.not_eq_true] at hc
    have hdig : i.RawPAN.all isDigitCh = true := all_digit_of_no_mask _ hall hc
    have hdig15 : (i.RawPAN.take 15).all isDigitCh = true := by
      rw [List.all_eq_true] at hdig ⊢
      exact fun c hcm => hdig c (List.mem_of_mem_take hcm)
    have hlen15 : (i.RawPAN.take 15).length = 15 := by
      simp [List.length_take, hlen]
    have hsum : luhnSumAux 0 0 (i.RawPAN.take 15) = specLuhnSum 0 (i.RawPAN.take 15) :=
      (luhnSumAux_eq _ 0 0 hdig15 (by rw [hlen15]; omega)).trans (Nat.zero_add _)
    have hsumle : specLuhnSum 0 (i.RawPAN.take 15) ≤ 135 := by
      have := specLuhnSum_le _ 0 hdig15
      rw [hlen15] at this
      omega
    have hd16 : isDigitCh (i.RawPAN.getD 15 '0') = true := by
      rw [List.all_eq_true] at hdig
      have h15 : 15 < i.RawPAN.length := by omega
      rw [List.getD_eq_getElem _ _ h15]
      exact hdig _ (List.getElem_mem h15)
    have hd16' : 48 ≤ (i.RawPAN.getD 15 '0').toNat ∧ (i.RawPAN.getD 15 '0').toNat ≤ 57 := by
      simpa [isDigitCh, Bool.and_eq_true, decide_eq_true_eq] using hd16
    have hchk : bsub (byteOf (i.RawPAN.getD 15 '0')) 48 = (i.RawPAN.getD 15 '0').toNat - 48 := by
      unfold bsub byteOf
      omega
    have hV : i.Validate =
        if badd (bsub (byteOf (i.RawPAN.getD 15 '0')) 48) (luhnSumAux 0 0 (i.RawPAN.take 15))
            % 10 ≠ 0
        then some ErrPANFormat.errValidate else none := by
      simp only [Info.Validate, hc, Bool.false_eq_true, if_false, hlen]
    have hba : badd ((i.RawPAN.getD 15 '0').toNat - 48) (specLuhnSum 0 (i.RawPAN.take 15))
        = specLuhnSum 0 (i.RawPAN.take 15) + ((i.RawPAN.getD 15 '0').toNat - 48) := by
      unfold badd
      omega
    rw [hchk, hsum, hba] at hV
    constructor
    · rw [hc]
      rw [hV]
      constructor
      · intro hx
        split_ifs at hx with hz
        · simp at hx
      · intro hx
        exact absurd hx (by simp)
    · intro _
      rw [hV]
      by_cases hz : (specLuhnSum 0 (i.RawPAN.take 15) + ((i.RawPAN.getD 15 '0').toNat - 48))
          % 10 = 0
      · rw [if_pos hz, if_neg (by omega)]
      · rw [if_neg hz, if_pos (by omega)]

/-- Witness for C1 at the concrete PAN 0000-0000-0000-0000. -/
theorem C1_validate_luhn_witness :
    Info.Validate ⟨⟨"0000".toList, "0000".toList, "0000".toList, "0000".toList⟩,
        CardType.unknownCardType⟩ =
      if (specLuhnSum 0 ((Info.RawPAN ⟨⟨"0000".toList, "0000".toList, "0000".toList,
            "0000".toList⟩, CardType.unknownCardType⟩).take 15)
          + (((Info.RawPAN ⟨⟨"0000".toList, "0000".toList, "0000".toList, "0000".toList⟩,
            CardType.unknownCardType⟩).getD 15 '0').toNat - 48)) % 10 = 0
      then none
      else some ErrPANFormat.errValidate :=
  (C1_validate_luhn ⟨⟨"0000".toList, "0000".toList, "0000".toList, "0000".toList⟩,
      CardType.unknownCardType⟩ (by decide)).2 (by decide)

/-- C2: evaluation of the code at the failing input.  The first section "2300"
lies inside the inclusive range 2221-2720 that the claim (and the comment above
`reMaster` in the source) promises to classify as MasterCard, yet the
constructed PAN is classified Unknown.  The boundary prefixes behave as
claimed. -/
theorem C2_master_range :
    ((2221 ≤ 2300 ∧ 2300 ≤ 2720)
      ∧ (FromRaw "2300000000000000".toList).map Info.CardType
          = Except.ok CardType.unknownCardType)
    ∧ (FromRaw "2221000000000000".toList).map Info.CardType = Except.ok CardType.masterCard
    ∧ (FromRaw "2720000000000000".toList).map Info.CardType = Except.ok CardType.masterCard
    ∧ (FromRaw "2220000000000000".toList).map Info.CardType = Except.ok CardType.unknownCardType
    ∧ (FromRaw "2721000000000000".toList).map Info.CardType = Except.ok CardType.unknownCardType
    := by
  exact ⟨⟨⟨by omega, by omega⟩, by decide⟩, by decide, by decide, by decide, by decide⟩

lemma getD_mem_or_nil (arr : List (List Char)) (k : Nat) :
    arr.getD k [] ∈ arr ∨ arr.getD k [] = ([] : List Char) := by
  by_cases hk : k < arr.length
  · rw [List.getD_eq_getElem _ _ hk]
    exact Or.inl (List.getElem_mem hk)
  · exact Or.inr (List.getD_eq_default _ _ (by omega))

lemma reSlicedPAN_getD (arr : List (List Char))
    (hgood : ∀ s ∈ arr, s.length ≤ 4 ∧ s.all isPanChar = true) (k : Nat) :
    reSlicedPAN (arr.getD k []) = true := by
  rcases getD_mem_or_nil arr k with hm | hn
  · exact (reSlicedPAN_iff _).mpr (hgood _ hm)
  · rw [hn]
    decide

lemma FromSlice_ok_good (arr : List (List Char)) (i : Info) (hok : FromSlice arr = Except.ok i) :
    arr.length ≤ 4 ∧ ∀ s ∈ arr, s.length ≤ 4 ∧ s.all isPanChar = true := by
  rw [FromSlice_ok_iff] at hok
  obtain ⟨hl, c0, c1, c2, c3, -⟩ := hok
  refine ⟨hl, ?_⟩
  intro s hs
  obtain ⟨k, hk, hks⟩ := List.mem_iff_getElem.mp hs
  have hgd : arr.getD k [] = s := by rw [List.getD_eq_getElem _ _ hk, hks]
  have hk4 : k < 4 := by omega
  have hres : reSlicedPAN s = true := by
    interval_cases k
    · rw [← hgd]; exact c0
    · rw [← hgd]; exact c1
    · rw [← hgd]; exact c2
    · rw [← hgd]; exact c3
  exact (reSlicedPAN_iff s).mp hres

/-- C3: the common fragment constructor succeeds exactly when at most 4
fragments are given, each of at most 4 characters drawn from `[0-9*]`; on
failure it returns the Section error; on success each fragment is right-padded
with mask characters to length 4 (a short list is padded with empty fragments);
`FromPart` is the same function, and the empty list yields the all-mask PAN. -/
theorem C3_fromSlice_contract (arr : List (List Char)) :
    FromPart arr = FromSlice arr
    ∧ ((arr.length ≤ 4 ∧ ∀ s ∈ arr, s.length ≤ 4 ∧ s.all isPanChar = true) →
        ∃ i, FromSlice arr = Except.ok i
          ∧ i.pan.s0 = arr.getD 0 [] ++ List.replicate (4 - (arr.getD 0 []).length) '*'
          ∧ i.pan.s1 = arr.getD 1 [] ++ List.replicate (4 - (arr.getD 1 []).length) '*'
          ∧ i.pan.s2 = arr.getD 2 [] ++ List.replicate (4 - (arr.getD 2 []).length) '*'
          ∧ i.pan.s3 = arr.getD 3 [] ++ List.replicate (4 - (arr.getD 3 []).length) '*')
    ∧ (¬(arr.length ≤ 4 ∧ ∀ s ∈ arr, s.length ≤ 4 ∧ s.all isPanChar = true) →
        FromSlice arr = Except.error ErrPANFormat.errSection)
    ∧ (FromSlice []).map Info.PAN = Except.ok "****-****-****-****".toList := by
  refine ⟨rfl, ?_, ?_, by decide⟩
  · rintro ⟨hl, hgood⟩
    have c0 := reSlicedPAN_getD arr hgood 0
    have c1 := reSlicedPAN_getD arr hgood 1
    have c2 := reSlicedPAN_getD arr hgood 2
    have c3 := reSlicedPAN_getD arr hgood 3
    refine ⟨⟨⟨padSection (arr.getD 0 []), padSection (arr.getD 1 []),
              padSection (arr.getD 2 []), padSection (arr.getD 3 [])⟩,
             cardType ⟨padSection (arr.getD 0 []), padSection (arr.getD 1 []),
              padSection (arr.getD 2 []), padSection (arr.getD 3 [])⟩⟩,
           (FromSlice_ok_iff arr _).mpr ⟨hl, c0, c1, c2, c3, rfl⟩, ?_, ?_, ?_, ?_⟩
    · exact padSection_eq_append _ ((reSlicedPAN_iff _).mp c0).1
    · exact padSection_eq_append _ ((reSlicedPAN_iff _).mp c1).1
    · exact padSection_eq_append _ ((reSlicedPAN_iff _).mp c2).1
    · exact padSection_eq_append _ ((reSlicedPAN_iff _).mp c3).1
  · intro hbad
    apply FromSlice_err
    intro i hok
    exact hbad (FromSlice_ok_good arr i hok)

/-- Witness for C3: a five-character fragment is rejected with the Section
error, and `["12"]` succeeds. -/
theorem C3_fromSlice_contract_witness :
    FromSlice [['1', '2', '3', '4', '5']] = Except.error ErrPANFormat.errSection
    ∧ ∃ i, FromSlice [['1', '2']] = Except.ok i
        ∧ i.pan.s0 = ['1', '2'] ++ List.replicate (4 - (['1', '2'] : List Char).length) '*' := by
  constructor
  · exact (C3_fromSlice_contract [['1', '2', '3', '4', '5']]).2.2.1 (by decide)
  · obtain ⟨i, hok, h0, -, -, -⟩ := (C3_fromSlice_contract [['1', '2']]).2.1 (by decide)
    exact ⟨i, hok, h0⟩

lemma all_four_slices (s : List Char) (f : Char → Bool) :
    s.all f = ((s.take 4).all f && ((s.drop 4).take 4).all f
      && ((s.drop 8).take 4).all f && (s.drop 12).all f) := by
  have d48 : (s.drop 4).drop 4 = s.drop 8 := by rw [List.drop_drop]
  have d812 : (s.drop 8).drop 4 = s.drop 12 := by rw [List.drop_drop]
  conv_lhs => rw [← List.take_append_drop 4 s]
  rw [List.all_append]
  conv_lhs => rw [← List.take_append_drop 4 (s.drop 4)]
  rw [List.all_append, d48]
  conv_lhs => rw [← List.take_append_drop 4 (s.drop 8)]
  rw [List.all_append, d812]
  simp [Bool.and_assoc]

/-- C4: `FromRaw` fails with the Raw error whenever the input is not exactly 16
characters long, regardless of its content; when the length is 16 but some
character falls outside `[0-9*]` it fails with the Section error; when the
length is 16 and every character is in `[0-9*]` it succeeds with the four
contiguous 4-character slices as sections. -/
theorem C4_fromRaw_contract (s : List Char) :
    (s.length ≠ 16 → FromRaw s = Except.error ErrPANFormat.errRaw)
    ∧ (s.length = 16 → s.all isPanChar = false →
        FromRaw s = Except.error ErrPANFormat.errSection)
    ∧ (s.length = 16 → s.all isPanChar = true →
        ∃ i, FromRaw s = Except.ok i
          ∧ i.pan.s0 = s.take 4 ∧ i.pan.s1 = (s.drop 4).take 4
          ∧ i.pan.s2 = (s.drop 8).take 4 ∧ i.pan.s3 = s.drop 12) := by
  refine ⟨?_, ?_, ?_⟩
  · intro h
    rw [FromRaw, if_pos h]
  · intro hlen hbad
    rw [FromRaw, if_neg (by omega)]
    show FromSlice _ = _
    apply FromSlice_err
    intro i hok
    obtain ⟨-, hgood⟩ := FromSlice_ok_good _ i hok
    have h0 := hgood _ (List.mem_cons_self _ _)
    have h1 := hgood _ (List.mem_cons_of_mem _ (List.mem_cons_self _ _))
    have h2 := hgood _ (List.mem_cons_of_mem _ (List.mem_cons_of_mem _ (List.mem_cons_self _ _)))
    have h3 := hgood _ (List.mem_cons_of_mem _ (List.mem_cons_of_mem _
      (List.mem_cons_of_mem _ (List.mem_cons_self _ _))))
    rw [all_four_slices s isPanChar, h0.2, h1.2, h2.2, h3.2] at hbad
    simp at hbad
  · intro hlen hall
    rw [all_four_slices s isPanChar] at hall
    simp only [Bool.and_eq_true] at hall
    obtain ⟨⟨⟨a0, a1⟩, a2⟩, a3⟩ := hall
    have l0 : (s.take 4).length = 4 := by rw [List.length_take]; omega
    have l1 : ((s.drop 4).take 4).length = 4 := by
      rw [List.length_take, List.length_drop]; omega
    have l2 : ((s.drop 8).take 4).length = 4 := by
      rw [List.length_take, List.length_drop]; omega
    have l3 : (s.drop 12).length = 4 := by rw [List.length_drop]; omega
    rw [FromRaw, if_neg (by omega)]
    refine ⟨⟨⟨s.take 4, (s.drop 4).take 4, (s.drop 8).take 4, s.drop 12⟩,
        cardType ⟨s.take 4, (s.drop 4).take 4, (s.drop 8).take 4, s.drop 12⟩⟩, ?_, rfl, rfl, rfl, rfl⟩
    show FromSlice _ = _
    rw [FromSlice_ok_iff]
    refine ⟨by simp, ?_, ?_, ?_, ?_, ?_⟩
    · rw [show ([s.take 4, (s.drop 4).take 4, (s.drop 8).take 4, s.drop 12].getD 0 [])
            = s.take 4 from rfl]
      exact (reSlicedPAN_iff _).mpr ⟨by omega, a0⟩
    · rw [show ([s.take 4, (s.drop 4).take 4, (s.drop 8).take 4, s.drop 12].getD 1 [])
            = (s.drop 4).take 4 from rfl]
      exact (reSlicedPAN_iff _).mpr ⟨by omega, a1⟩
    · rw [show ([s.take 4, (s.drop 4).take 4, (s.drop 8).take 4, s.drop 12].getD 2 [])
            = (s.drop 8).take 4 from rfl]
      exact (reSlicedPAN_iff _).mpr ⟨by omega, a2⟩
    · rw [show ([s.take 4, (s.drop 4).take 4, (s.drop 8).take 4, s.drop 12].getD 3 [])
            = s.drop 12 from rfl]
      exact (reSlicedPAN_iff _).mpr ⟨by omega, a3⟩
    · show _ = Info.mk _ _
      rw [show ([s.take 4, (s.drop 4).take 4, (s.drop 8).take 4, s.drop 12].getD 0 [])
            = s.take 4 from rfl,
          show ([s.take 4, (s.drop 4).take 4, (s.drop 8).take 4, s.drop 12].getD 1 [])
            = (s.drop 4).take 4 from rfl,
          show ([s.take 4, (s.drop 4).take 4, (s.drop 8).take 4, s.drop 12].getD 2 [])
            = (s.drop 8).take 4 from rfl,
          show ([s.take 4, (s.drop 4).take 4, (s.drop 8).take 4, s.drop 12].getD 3 [])
            = s.drop 12 from rfl,
          padSection_id _ l0, padSection_id _ l1, padSection_id _ l2, padSection_id _ l3]

/-- Witness for C4 at a 3-character input, a 16-character input with a letter,
and the sample raw PAN. -/
theorem C4_fromRaw_contract_witness :
    FromRaw ['1', '2', '3'] = Except.error ErrPANFormat.errRaw
    ∧ FromRaw "12345678901234ab".toList = Except.error ErrPANFormat.errSection := by
  constructor
  · exact (C4_fromRaw_contract ['1', '2', '3']).1 (by decide)
  · exact (C4_fromRaw_contract "12345678901234ab".toList).2.1 (by decide) (by decide)

/-- C5 counterexample: `"abcdef"` has length 6 and `"3456"` length 4, yet
`FromMasked` fails, and with the Section error rather than the Masked one, so
failure is not equivalent to a length violation and MaskedFormat is not the
only error kind. -/
theorem C5_counterexample :
    ("abcdef".toList).length = 6 ∧ ("3456".toList).length = 4
    ∧ FromMasked "abcdef".toList "3456".toList = Except.error ErrPANFormat.errSection := by
  exact ⟨rfl, rfl, by decide⟩

/-- C5 amended: `FromMasked` fails with the Masked error exactly on a length
violation; with correct lengths it fails with the Section error when some
character of either argument is outside `[0-9*]`, and otherwise succeeds with
sections `first6[0:4]`, `first6[4:6] + "**"`, `"****"`, `last4`, so that
`RawPAN()` is `first6 + "******" + last4`. -/
theorem C5_fromMasked_contract (first6 last4 : List Char) :
    ((first6.length ≠ 6 ∨ last4.length ≠ 4) →
        FromMasked first6 last4 = Except.error ErrPANFormat.errMasked)
    ∧ (first6.length = 6 → last4.length = 4 →
        first6.all isPanChar = true → last4.all isPanChar = true →
        ∃ i, FromMasked first6 last4 = Except.ok i
          ∧ i.pan.s0 = first6.take 4
          ∧ i.pan.s1 = first6.drop 4 ++ ['*', '*']
          ∧ i.pan.s2 = ['*', '*', '*', '*']
          ∧ i.pan.s3 = last4
          ∧ i.RawPAN = first6 ++ "******".toList ++ last4)
    ∧ (first6.length = 6 → last4.length = 4 →
        (first6.all isPanChar = false ∨ last4.all isPanChar = false) →
        FromMasked first6 last4 = Except.error ErrPANFormat.errSection) := by
  have hsplit : first6.all isPanChar
      = ((first6.take 4).all isPanChar && (first6.drop 4).all isPanChar) := by
    conv_lhs => rw [← List.take_append_drop 4 first6]
    rw [List.all_append]
  refine ⟨?_, ?_, ?_⟩
  · intro h
    rw [FromMasked, if_pos h]
  · intro h6 h4 hall6 hall4
    rw [hsplit, Bool.and_eq_true] at hall6
    have l0 : (first6.take 4).length = 4 := by rw [List.length_take]; omega
    have l1 : (first6.drop 4 ++ ['*', '*']).length = 4 := by
      rw [List.length_append, List.length_drop]
      simp
      omega
    have a1 : (first6.drop 4 ++ ['*', '*']).all isPanChar = true := by
      rw [List.all_append, Bool.and_eq_true]
      exact ⟨hall6.2, by decide⟩
    rw [FromMasked, if_neg (by omega)]
    refine ⟨⟨⟨first6.take 4, first6.drop 4 ++ ['*', '*'], ['*', '*', '*', '*'], last4⟩,
        cardType ⟨first6.take 4, first6.drop 4 ++ ['*', '*'], ['*', '*', '*', '*'], last4⟩⟩,
        ?_, rfl, rfl, rfl, rfl, ?_⟩
    · show FromSlice _ = _
      rw [FromSlice_ok_iff]
      refine ⟨by simp, ?_, ?_, ?_, ?_, ?_⟩
      · rw [show ([first6.take 4, first6.drop 4 ++ ['*', '*'], ['*', '*', '*', '*'],
              last4].getD 0 []) = first6.take 4 from rfl]
        exact (reSlicedPAN_iff _).mpr ⟨by omega, hall6.1⟩
      · rw [show ([first6.take 4, first6.drop 4 ++ ['*', '*'], ['*', '*', '*', '*'],
              last4].getD 1 []) = first6.drop 4 ++ ['*', '*'] from rfl]
        exact (reSlicedPAN_iff _).mpr ⟨by omega, a1⟩
      · rw [show ([first6.take 4, first6.drop 4 ++ ['*', '*'], ['*', '*', '*', '*'],
              last4].getD 2 []) = (['*', '*', '*', '*'] : List Char) from rfl]
        decide
      · rw [show ([first6.take 4, first6.drop 4 ++ ['*', '*'], ['*', '*', '*', '*'],
              last4].getD 3 []) = last4 from rfl]
        exact (reSlicedPAN_iff _).mpr ⟨by omega, hall4⟩
      · show _ = Info.mk _ _
        rw [show ([first6.take 4, first6.drop 4 ++ ['*', '*'], ['*', '*', '*', '*'],
              last4].getD 0 []) = first6.take 4 from rfl,
            show ([first6.take 4, first6.drop 4 ++ ['*', '*'], ['*', '*', '*', '*'],
              last4].getD 1 []) = first6.drop 4 ++ ['*', '*'] from rfl,
            show ([first6.take 4, first6.drop 4 ++ ['*', '*'], ['*', '*', '*', '*'],
              last4].getD 2 []) = (['*', '*', '*', '*'] : List Char) from rfl,
            show ([first6.take 4, first6.drop 4 ++ ['*', '*'], ['*', '*', '*', '*'],
              last4].getD 3 []) = last4 from rfl,
            padSection_id _ l0, padSection_id _ l1,
            padSection_id _ (by decide), padSection_id _ h4]
    · show first6.take 4 ++ (first6.drop 4 ++ ['*', '*']) ++ ['*', '*', '*', '*'] ++ last4
          = first6 ++ "******".toList ++ last4
      rw [show "******".toList = (['*', '*', '*', '*', '*', '*'] : List Char) from rfl]
      simp only [List.append_assoc, List.cons_append, List.nil_append]
      rw [← List.append_assoc, List.take_append_drop]
  · intro h6 h4 hbad
    rw [FromMasked, if_neg (by omega)]
    show FromSlice _ = _
    apply FromSlice_err
    intro i hok
    obtain ⟨-, hgood⟩ := FromSlice_ok_good _ i hok
    have g0 := (hgood _ (List.mem_cons_self _ _)).2
    have g1 := (hgood _ (List.mem_cons_of_mem _ (List.mem_cons_self _ _))).2
    have g3 := (hgood _ (List.mem_cons_of_mem _ (List.mem_cons_of_mem _
      (List.mem_cons_of_mem _ (List.mem_cons_self _ _))))).2
    rw [List.all_append, Bool.and_eq_true] at g1
    rcases hbad with hb | hb
    · rw [hsplit, g0, g1.1] at hb
      simp at hb
    · rw [g3] at hb
      simp at hb

/-- Witness for C5 at a short first argument, an alphabetic first argument,
and the sample masked pair. -/
theorem C5_fromMasked_contract_witness :
    FromMasked ['1', '2', '3', '4', '5'] ['3', '4', '5', '6']
        = Except.error ErrPANFormat.errMasked
    ∧ ∃ i, FromMasked "123456".toList "3456".toList = Except.ok i
        ∧ i.RawPAN = "123456".toList ++ "******".toList ++ "3456".toList := by
  constructor
  · exact (C5_fromMasked_contract ['1', '2', '3', '4', '5'] ['3', '4', '5', '6']).1
      (Or.inl (by decide))
  · obtain ⟨i, hok, -, -, -, -, hraw⟩ :=
      (C5_fromMasked_contract "123456".toList "3456".toList).2.1
        (by decide) (by decide) (by decide) (by decide)
    exact ⟨i, hok, hraw⟩

/-- C6: for every constructed PAN containing no mask character,
`FromRaw (RawPAN p)` succeeds and returns a structurally equal PAN — the same
four sections and the same stored card type. -/
theorem C6_roundtrip (i : Info) (h : Constructed i) (hm : i.RawPAN.contains '*' = false) :
    FromRaw i.RawPAN = Except.ok i := by
  obtain ⟨hwf, htyp⟩ := Constructed_wf i h
  have hlen : i.RawPAN.length = 16 := WF_rawPAN_length i hwf
  obtain ⟨⟨l0, a0⟩, ⟨l1, a1⟩, ⟨l2, a2⟩, ⟨l3, a3⟩⟩ := hwf
  have e : i.RawPAN = i.pan.s0 ++ i.pan.s1 ++ i.pan.s2 ++ i.pan.s3 := rfl
  have t0 : i.RawPAN.take 4 = i.pan.s0 := by
    rw [e]
    simp only [List.append_assoc]
    exact List.take_left' l0
  have t1 : (i.RawPAN.drop 4).take 4 = i.pan.s1 := by
    rw [e]
    simp only [List.append_assoc]
    rw [List.drop_left' l0]
    exact List.take_left' l1
  have t2 : (i.RawPAN.drop 8).take 4 = i.pan.s2 := by
    rw [e, show i.pan.s0 ++ i.pan.s1 ++ i.pan.s2 ++ i.pan.s3
          = (i.pan.s0 ++ i.pan.s1) ++ (i.pan.s2 ++ i.pan.s3) by
        simp [List.append_assoc]]
    rw [List.drop_left' (by rw [List.length_append, l0, l1])]
    exact List.take_left' l2
  have t3 : i.RawPAN.drop 12 = i.pan.s3 := by
    rw [e, show i.pan.s0 ++ i.pan.s1 ++ i.pan.s2 ++ i.pan.s3
          = (i.pan.s0 ++ i.pan.s1 ++ i.pan.s2) ++ i.pan.s3 from rfl]
    exact List.drop_left' (by rw [List.length_append, List.length_append, l0, l1, l2])
  rw [FromRaw, if_neg (by omega)]
  show FromSlice _ = _
  rw [t0, t1, t2, t3, FromSlice_ok_iff]
  refine ⟨by simp, ?_, ?_, ?_, ?_, ?_⟩
  · rw [show ([i.pan.s0, i.pan.s1, i.pan.s2, i.pan.s3].getD 0 []) = i.pan.s0 from rfl]
    exact (reSlicedPAN_iff _).mpr ⟨by omega, a0⟩
  · rw [show ([i.pan.s0, i.pan.s1, i.pan.s2, i.pan.s3].getD 1 []) = i.pan.s1 from rfl]
    exact (reSlicedPAN_iff _).mpr ⟨by omega, a1⟩
  · rw [show ([i.pan.s0, i.pan.s1, i.pan.s2, i.pan.s3].getD 2 []) = i.pan.s2 from rfl]
    exact (reSlicedPAN_iff _).mpr ⟨by omega, a2⟩
  · rw [show ([i.pan.s0, i.pan.s1, i.pan.s2, i.pan.s3].getD 3 []) = i.pan.s3 from rfl]
    exact (reSlicedPAN_iff _).mpr ⟨by omega, a3⟩
  · rw [show ([i.pan.s0, i.pan.s1, i.pan.s2, i.pan.s3].getD 0 []) = i.pan.s0 from rfl,
        show ([i.pan.s0, i.pan.s1, i.pan.s2, i.pan.s3].getD 1 []) = i.pan.s1 from rfl,
        show ([i.pan.s0, i.pan.s1, i.pan.s2, i.pan.s3].getD 2 []) = i.pan.s2 from rfl,
        show ([i.pan.s0, i.pan.s1, i.pan.s2, i.pan.s3].getD 3 []) = i.pan.s3 from rfl,
        padSection_id _ l0, padSection_id _ l1, padSection_id _ l2, padSection_id _ l3]
    cases i with
    | mk pan typ =>
      cases pan with
      | mk s0 s1 s2 s3 =>
        simp only at htyp ⊢
        rw [htyp]

/-- Witness for C6 at the unmasked PAN 1234-5678-9012-3456. -/
theorem C6_roundtrip_witness :
    FromRaw (Info.RawPAN ⟨⟨"1234".toList, "5678".toList, "9012".toList, "3456".toList⟩,
        CardType.unknownCardType⟩)
      = Except.ok ⟨⟨"1234".toList, "5678".toList, "9012".toList, "3456".toList⟩,
        CardType.unknownCardType⟩ :=
  C6_roundtrip _
    (Or.inl ⟨["1234".toList, "5678".toList, "9012".toList, "3456".toList], by decide⟩)
    (by decide)

/-- C7 counterexample: `FromRaw("1234567890123456")` yields a PAN whose
`CardType()` is Unknown, not Visa (the prefix "1234" does not start with 4). -/
theorem C7_counterexample :
    (FromRaw "1234567890123456".toList).map Info.CardType ≠ Except.ok CardType.visaCard := by
  decide

/-- C7 amended: the sample raw PAN round-trips through the accessors exactly as
claimed, except that its card type is Unknown rather than Visa. -/
theorem C7_sample_accessors :
    ∃ i, FromRaw "1234567890123456".toList = Except.ok i
      ∧ i.PAN = "1234-5678-9012-3456".toList
      ∧ i.Masked = "1234-56**-****-3456".toList
      ∧ i.Checksum = "6".toList
      ∧ i.CardType = CardType.unknownCardType := by
  refine ⟨⟨⟨"1234".toList, "5678".toList, "9012".toList, "3456".toList⟩,
      CardType.unknownCardType⟩, by decide, by decide, by decide, by decide, rfl⟩

/-- C8: every PAN returned without error by any of the five constructors holds
exactly four sections, every section has length exactly 4, and every character
of every section is a decimal digit or the mask character.  In this functional
embedding every accessor is a pure function of the immutable `Info` value, so
the invariant established at construction persists under every operation. -/
theorem C8_invariant (i : Info) (h : Constructed i) : WF i :=
  (Constructed_wf i h).1

/-- Witness for C8 at the PAN constructed from the empty fragment list. -/
theorem C8_invariant_witness :
    WF ⟨⟨['*', '*', '*', '*'], ['*', '*', '*', '*'], ['*', '*', '*', '*'],
        ['*', '*', '*', '*']⟩, CardType.unknownCardType⟩ :=
  C8_invariant _ (Or.inl ⟨[], by decide⟩)

/-- C9: the card type of a constructed PAN is determined by its first section
alone — two constructed PANs with equal first sections have equal card types,
whatever their other sections are. -/
theorem C9_cardType_noninterference (i1 i2 : Info) (h1 : Constructed i1)
    (h2 : Constructed i2) (hs : i1.pan.s0 = i2.pan.s0) : i1.CardType = i2.CardType := by
  obtain ⟨-, t1⟩ := Constructed_wf i1 h1
  obtain ⟨-, t2⟩ := Constructed_wf i2 h2
  show i1.typ = i2.typ
  rw [t1, t2]
  unfold cardType
  rw [hs]

/-- Witness for C9: two PANs sharing the first section "4000" but differing
everywhere else have the same card type. -/
theorem C9_cardType_noninterference_witness :
    Info.CardType ⟨⟨"4000".toList, "0000".toList, "0000".toList, "0000".toList⟩,
        CardType.visaCard⟩
      = Info.CardType ⟨⟨"4000".toList, "9999".toList, "8888".toList, "7777".toList⟩,
        CardType.visaCard⟩ :=
  C9_cardType_noninterference _ _
    (Or.inl ⟨["4000".toList, "0000".toList, "0000".toList, "0000".toList], by decide⟩)
    (Or.inl ⟨["4000".toList, "9999".toList, "8888".toList, "7777".toList], by decide⟩)
    rfl

lemma goSplitDash_no_dash (s : List Char) (h : s.contains '-' = false) :
    goSplitDash s = [s] := by
  induction s with
  | nil => rfl
  | cons c rest ih =>
    rw [List.contains_cons, Bool.or_eq_false_iff] at h
    obtain ⟨hc, hrest⟩ := h
    have hcc : ¬(c = '-') := by
      intro he
      rw [he] at hc
      simp at hc
    simp only [goSplitDash, if_neg hcc, ih hrest]

/-- C10: splitting the empty string on a dash yields one empty fragment, so
`FromDashed ""` succeeds and produces the all-mask PAN; more generally,
`FromDashed` of any dash-free string of at most 4 characters over `[0-9*]`
succeeds, with that string mask-padded as the first section and all-mask
remaining sections. -/
theorem C10_fromDashed_empty :
    goSplitDash [] = [[]]
    ∧ (FromDashed []).map Info.PAN = Except.ok "****-****-****-****".toList
    ∧ (∀ s : List Char, s.contains '-' = false → s.length ≤ 4 → s.all isPanChar = true →
        ∃ i, FromDashed s = Except.ok i
          ∧ i.pan.s0 = s ++ List.replicate (4 - s.length) '*'
          ∧ i.pan.s1 = "****".toList ∧ i.pan.s2 = "****".toList
          ∧ i.pan.s3 = "****".toList) := by
  refine ⟨rfl, by decide, ?_⟩
  intro s hdash hlen hall
  rw [FromDashed, goSplitDash_no_dash s hdash]
  refine ⟨⟨⟨padSection s, "****".toList, "****".toList, "****".toList⟩,
      cardType ⟨padSection s, "****".toList, "****".toList, "****".toList⟩⟩, ?_,
      by simpa using padSection_eq_append s hlen, rfl, rfl, rfl⟩
  rw [FromSlice_ok_iff]
  refine ⟨by simp, ?_, ?_, ?_, ?_, ?_⟩
  · rw [show ([s].getD 0 []) = s from rfl]
    exact (reSlicedPAN_iff _).mpr ⟨hlen, hall⟩
  · rw [show ([s].getD 1 []) = ([] : List Char) from rfl]
    decide
  · rw [show ([s].getD 2 []) = ([] : List Char) from rfl]
    decide
  · rw [show ([s].getD 3 []) = ([] : List Char) from rfl]
    decide
  · rw [show ([s].getD 0 []) = s from rfl,
        show ([s].getD 1 []) = ([] : List Char) from rfl,
        show ([s].getD 2 []) = ([] : List Char) from rfl,
        show ([s].getD 3 []) = ([] : List Char) from rfl]
    rfl

/-- Witness for C10 at the dash-free fragment "12". -/
theorem C10_fromDashed_empty_witness :
    ∃ i, FromDashed ['1', '2'] = Except.ok i
      ∧ i.pan.s0 = ['1', '2'] ++ List.replicate (4 - (['1', '2'] : List Char).length) '*' := by
  obtain ⟨i, hok, h0, -, -, -⟩ :=
    C10_fromDashed_empty.2.2 ['1', '2'] (by decide) (by decide) (by decide)
  exact ⟨i, hok, h0⟩
